import Mathlib

/-!
Verification of the Trello-style board core of STM-modules.

The Python source (`app/trello/models.py` and `app/trello/__init__.py`) is
shallowly embedded below: each SQLAlchemy table becomes a Lean structure, the
database becomes a `DB` record of row lists, and each Flask endpoint's
data-mutating core becomes a pure function `DB → ... → Except TrelloErr DB`.
Datetimes are modelled as `Int` instants supplied by the caller (`now`), and
the authenticated `current_user` is an explicit `uid` argument.
-/

namespace Trella

/-- A row of the `board_members` association table: (board, user) with a role. -/
structure Membership where
  board_id : Nat
  user_id : Nat
  role : String
deriving Repr, DecidableEq

/-- A row of `trello_boards`; columns irrelevant to the verified claims
(background image, timestamps) are omitted. -/
structure TrelloBoard where
  id : Nat
  name : String
  description : String
  background_color : String
  is_private : Bool
  is_archived : Bool
  created_by : Nat
deriving Repr, DecidableEq

/-- A row of `trello_lists`. -/
structure TrelloList where
  id : Nat
  board_id : Nat
  name : String
  position : Int
  is_archived : Bool
deriving Repr, DecidableEq

/-- A row of `trello_cards`; the due date is an optional instant. -/
structure TrelloCard where
  id : Nat
  list_id : Nat
  title : String
  description : String
  position : Int
  due_date : Option Int
  due_complete : Bool
  is_archived : Bool
  created_by : Nat
deriving Repr, DecidableEq

/-- A row of `trello_labels`. -/
structure TrelloLabel where
  id : Nat
  board_id : Nat
  name : String
  color : String
deriving Repr, DecidableEq

/-- A row of `trello_comments`. -/
structure TrelloComment where
  id : Nat
  card_id : Nat
  user_id : Nat
  content : String
deriving Repr, DecidableEq

/-- A row of `trello_checklists`. -/
structure TrelloChecklist where
  id : Nat
  card_id : Nat
  name : String
  position : Int
deriving Repr, DecidableEq

/-- A row of `trello_checklist_items`. -/
structure TrelloChecklistItem where
  id : Nat
  checklist_id : Nat
  content : String
  is_complete : Bool
  position : Int
  completed_by : Option Nat
  completed_at : Option Int
deriving Repr, DecidableEq

/-- A row of `trello_activities`; the JSON `details` column is modelled as an
optional opaque string. -/
structure TrelloActivity where
  id : Nat
  board_id : Nat
  user_id : Option Nat
  action : String
  target_type : Option String
  target_id : Option Nat
  details : Option String
deriving Repr, DecidableEq

/-! ## `models.py`: permission queries on a board

`TrelloBoard.get_member_role` runs a select over `board_members` filtered on
`(board_id, user_id)` and takes `.first()`; the membership table `rows` is
passed explicitly here because the Python methods reach it through the
session. -/

/-- `TrelloBoard.get_member_role`: role of the first matching membership row,
`none` when the user has no explicit membership. -/
def get_member_role (rows : List Membership) (b : TrelloBoard) (uid : Nat) : Option String :=
  (rows.find? (fun m => m.board_id == b.id && m.user_id == uid)).map (fun m => m.role)

/-- Python's `x in list` for a value that may be `None` (`None` is never a
member of a list of strings). -/
def pyRoleIn (role : Option String) (allowed : List String) : Bool :=
  match role with
  | none => false
  | some r => allowed.contains r

/-- `TrelloBoard.is_owner`. -/
def is_owner (rows : List Membership) (b : TrelloBoard) (uid : Nat) : Bool :=
  b.created_by == uid || get_member_role rows b uid == some "owner"

/-- `TrelloBoard.can_edit`. -/
def can_edit (rows : List Membership) (b : TrelloBoard) (uid : Nat) : Bool :=
  pyRoleIn (get_member_role rows b uid) ["owner", "admin", "member"] || b.created_by == uid

/-- Ids of the users reached by the `members` relationship (the users joined
through `board_members` rows of this board). -/
def memberIds (rows : List Membership) (b : TrelloBoard) : List Nat :=
  (rows.filter (fun m => m.board_id == b.id)).map (fun m => m.user_id)

/-- `TrelloBoard.can_view`. -/
def can_view (rows : List Membership) (b : TrelloBoard) (uid : Nat) : Bool :=
  if !b.is_private then true
  else (memberIds rows b).contains uid || b.created_by == uid

/-- `TrelloCard.is_overdue`, with `datetime.utcnow()` passed in as `now`. -/
def is_overdue (now : Int) (c : TrelloCard) : Bool :=
  match c.due_date with
  | none => false
  | some d => if c.due_complete then false else decide (now > d)

/-! ## Database state and row lookup

The relational store is a record of row lists. `next_id` models the
autoincrement id supply; `.get_or_404` / `.get` / `.first()` become `find?`
over the corresponding table. -/

/-- The persistent state touched by the board blueprint. -/
structure DB where
  boards : List TrelloBoard
  board_memberships : List Membership
  lists : List TrelloList
  cards : List TrelloCard
  labels : List TrelloLabel
  comments : List TrelloComment
  checklists : List TrelloChecklist
  checklist_items : List TrelloChecklistItem
  activities : List TrelloActivity
  next_id : Nat
deriving Repr, DecidableEq

/-- `TrelloBoard.query.get(id)`. -/
def findBoard (db : DB) (i : Nat) : Option TrelloBoard :=
  db.boards.find? (fun b => b.id == i)

/-- `TrelloList.query.get(id)`. -/
def findList (db : DB) (i : Nat) : Option TrelloList :=
  db.lists.find? (fun l => l.id == i)

/-- `TrelloCard.query.get(id)`. -/
def findCard (db : DB) (i : Nat) : Option TrelloCard :=
  db.cards.find? (fun c => c.id == i)

/-- `TrelloComment.query.get(id)`. -/
def findComment (db : DB) (i : Nat) : Option TrelloComment :=
  db.comments.find? (fun c => c.id == i)

/-- `TrelloChecklist.query.get(id)`. -/
def findChecklist (db : DB) (i : Nat) : Option TrelloChecklist :=
  db.checklists.find? (fun c => c.id == i)

/-- `TrelloChecklistItem.query.get(id)`. -/
def findChecklistItem (db : DB) (i : Nat) : Option TrelloChecklistItem :=
  db.checklist_items.find? (fun c => c.id == i)

/-- Errors the endpoints surface (HTTP 404 and 403 in the Flask layer). -/
inductive TrelloErr where
  | notFound
  | permissionDenied
deriving Repr, DecidableEq

/-- `log_activity`: append an activity row for the acting user. -/
def log_activity (db : DB) (uid : Nat) (boardId : Nat) (action : String)
    (targetType : Option String) (targetId : Option Nat) (details : Option String) : DB :=
  { db with
    activities := db.activities ++
      [{ id := db.next_id, board_id := boardId, user_id := some uid, action := action,
         target_type := targetType, target_id := targetId, details := details }],
    next_id := db.next_id + 1 }

/-! ## Ordering helpers

`db.session.query(func.max(...)).filter_by(...).scalar() or 0`: SQL `MAX`
over the sibling positions (NULL on an empty set, surfaced as `none`),
then Python's `or 0` which maps both `None` and `0` to `0`. -/

/-- SQL `MAX` over a list of integer positions. -/
def sqlMaxInt : List Int → Option Int
  | [] => none
  | p :: ps =>
    match sqlMaxInt ps with
    | none => some p
    | some m => some (max p m)

/-- Python's `x or 0` applied to an optional integer scalar. -/
def pyOrZero : Option Int → Int
  | none => 0
  | some m => if m = 0 then 0 else m

/-! ## `__init__.py`: endpoint operations -/

/-- The fixed default label palette seeded by `create_board`. -/
def default_labels : List (String × String) :=
  [("", "emerald"), ("", "blue"), ("", "purple"), ("", "red"), ("", "yellow"), ("", "orange")]

/-- The three default list names seeded by `create_board`. -/
def default_lists : List String := ["To Do", "In Progress", "Done"]

/-- Python's `enumerate(xs)` starting at index `i`. -/
def pyEnumFrom {α : Type} (i : Nat) : List α → List (Nat × α)
  | [] => []
  | x :: xs => (i, x) :: pyEnumFrom (i + 1) xs

/-- `create_board` (POST branch): insert the board, the six default labels,
the three default lists at positions 0,1,2, and one `created_board` activity
entry, all committed as a single transaction (one pure state update here). -/
def create_board (db : DB) (uid : Nat) (nameInput descInput : String)
    (bgInput : String) (privOn : Bool) : DB × TrelloBoard :=
  let bid := db.next_id
  let board : TrelloBoard :=
    { id := bid, name := nameInput, description := descInput, background_color := bgInput,
      is_private := privOn, is_archived := false, created_by := uid }
  let newLabels : List TrelloLabel :=
    (pyEnumFrom 0 default_labels).map (fun p =>
      { id := bid + 1 + p.1, board_id := bid, name := p.2.1, color := p.2.2 })
  let newLists : List TrelloList :=
    (pyEnumFrom 0 default_lists).map (fun p =>
      { id := bid + 7 + p.1, board_id := bid, name := p.2, position := (p.1 : Int),
        is_archived := false })
  let db1 : DB :=
    { db with
      boards := db.boards ++ [board]
      labels := db.labels ++ newLabels
      lists := db.lists ++ newLists
      next_id := bid + 10 }
  (log_activity db1 uid bid "created_board" (some "board") (some bid) none, board)

/-- `create_list`: permission-checked append of a list at
`max(sibling positions) or 0` plus one. `nameInput = none` models a POST form
without a `name` field (defaulted to "New List"). -/
def create_list (db : DB) (uid : Nat) (boardId : Nat) (nameInput : Option String) :
    Except TrelloErr (DB × TrelloList) :=
  match findBoard db boardId with
  | none => .error .notFound
  | some board =>
    if !can_edit db.board_memberships board uid then .error .permissionDenied
    else
      let maxPos := pyOrZero (sqlMaxInt ((db.lists.filter (fun l => l.board_id == boardId)).map
        (fun l => l.position)))
      let lst : TrelloList :=
        { id := db.next_id, board_id := boardId, name := nameInput.getD "New List",
          position := maxPos + 1, is_archived := false }
      let db1 : DB := { db with lists := db.lists ++ [lst], next_id := db.next_id + 1 }
      .ok (log_activity db1 uid boardId "created_list" (some "list") (some lst.id)
        (some lst.name), lst)

/-- `create_card`: permission-checked append of a card at
`max(sibling positions) or 0` plus one. `titleInput = none` models a POST
form without a `title` field (defaulted to "New Card"). -/
def create_card (db : DB) (uid : Nat) (listId : Nat) (titleInput : Option String) :
    Except TrelloErr (DB × TrelloCard) :=
  match findList db listId with
  | none => .error .notFound
  | some lst =>
    match findBoard db lst.board_id with
    | none => .error .notFound
    | some board =>
      if !can_edit db.board_memberships board uid then .error .permissionDenied
      else
        let maxPos := pyOrZero (sqlMaxInt ((db.cards.filter (fun c => c.list_id == listId)).map
          (fun c => c.position)))
        let card : TrelloCard :=
          { id := db.next_id, list_id := listId, title := titleInput.getD "New Card",
            description := "", position := maxPos + 1, due_date := none, due_complete := false,
            is_archived := false, created_by := uid }
        let db1 : DB := { db with cards := db.cards ++ [card], next_id := db.next_id + 1 }
        .ok (log_activity db1 uid board.id "created_card" (some "card") (some card.id)
          (some card.title), card)

/-- Write back a mutated row: the fetched ORM object is updated in place, so
every row matching the fetched id is replaced by its updated image. -/
def writeCard (db : DB) (cid : Nat) (f : TrelloCard → TrelloCard) : DB :=
  { db with cards := db.cards.map (fun c => if c.id == cid then f c else c) }

/-- `move_card`: optional cross-list move (applied only when the target list
exists and belongs to the same board, with a `moved_card` activity entry),
then optional position write. `dataListId`/`dataPos` model the presence of
the `list_id` / `position` keys in the request JSON. -/
def move_card (db : DB) (uid : Nat) (cid : Nat) (dataListId : Option Nat)
    (dataPos : Option Int) : Except TrelloErr DB :=
  match findCard db cid with
  | none => .error .notFound
  | some card =>
    match findList db card.list_id with
    | none => .error .notFound
    | some lst =>
      match findBoard db lst.board_id with
      | none => .error .notFound
      | some board =>
        if !can_edit db.board_memberships board uid then .error .permissionDenied
        else
          let moveTo : Option TrelloList :=
            match dataListId with
            | none => none
            | some nlid =>
              match findList db nlid with
              | none => none
              | some nl => if nl.board_id == board.id then some nl else none
          let db1 : DB :=
            match moveTo with
            | none => db
            | some nl => log_activity db uid board.id "moved_card" (some "card") (some cid)
                (some nl.name)
          let step1 : TrelloCard → TrelloCard := fun c =>
            match moveTo with
            | none => c
            | some nl => { c with list_id := nl.id }
          let step2 : TrelloCard → TrelloCard := fun c =>
            match dataPos with
            | none => c
            | some p => { c with position := p }
          .ok (writeCard db1 cid (fun c => step2 (step1 c)))

/-- `delete_comment`: permitted only to the comment's author or a board
owner; everyone else receives a 403 and the row stays. -/
def delete_comment (db : DB) (uid : Nat) (commentId : Nat) : Except TrelloErr DB :=
  match findComment db commentId with
  | none => .error .notFound
  | some comment =>
    match findCard db comment.card_id with
    | none => .error .notFound
    | some card =>
      match findList db card.list_id with
      | none => .error .notFound
      | some lst =>
        match findBoard db lst.board_id with
        | none => .error .notFound
        | some board =>
          if comment.user_id != uid && !is_owner db.board_memberships board uid then
            .error .permissionDenied
          else
            .ok { db with comments := db.comments.filter (fun c => !(c.id == commentId)) }

/-- The in-place item update performed by `toggle_checklist_item`: flip
`is_complete`, and set or clear `completed_by`/`completed_at` accordingly. -/
def toggleItem (uid : Nat) (now : Int) (item : TrelloChecklistItem) : TrelloChecklistItem :=
  let nc := !item.is_complete
  if nc then
    { item with is_complete := nc, completed_by := some uid, completed_at := some now }
  else
    { item with is_complete := nc, completed_by := none, completed_at := none }

/-- `toggle_checklist_item`: permission-checked toggle of one item's
completion state. -/
def toggle_checklist_item (db : DB) (uid : Nat) (now : Int) (itemId : Nat) :
    Except TrelloErr DB :=
  match findChecklistItem db itemId with
  | none => .error .notFound
  | some item =>
    match findChecklist db item.checklist_id with
    | none => .error .notFound
    | some cl =>
      match findCard db cl.card_id with
      | none => .error .notFound
      | some card =>
        match findList db card.list_id with
        | none => .error .notFound
        | some lst =>
          match findBoard db lst.board_id with
          | none => .error .notFound
          | some board =>
            if !can_edit db.board_memberships board uid then .error .permissionDenied
            else
              .ok { db with
                    checklist_items := db.checklist_items.map
                      (fun i => if i.id == itemId then toggleItem uid now i else i) }

/-- Mutual consistency of the completion fields of a checklist item, as
stated by the spec's invariant. -/
def completionConsistent (i : TrelloChecklistItem) : Prop :=
  i.completed_by.isSome = i.is_complete ∧ i.completed_at.isSome = i.is_complete

/-! ## Sample data used by witnesses -/

/-- A public board created by user 1. -/
def samplePublicBoard : TrelloBoard :=
  { id := 1, name := "B", description := "", background_color := "slate",
    is_private := false, is_archived := false, created_by := 1 }

/-- A private board created by user 2. -/
def samplePrivateBoard : TrelloBoard :=
  { id := 1, name := "B", description := "", background_color := "slate",
    is_private := true, is_archived := false, created_by := 2 }

/-- One viewer-role membership row: user 5 is a viewer of board 1. -/
def sampleViewerRows : List Membership := [{ board_id := 1, user_id := 5, role := "viewer" }]

/-- One member-role membership row: user 5 is a member of board 1. -/
def sampleMemberRows : List Membership := [{ board_id := 1, user_id := 5, role := "member" }]

/-- A small database: public board 1 created by user 1, holding the single
empty list 2. -/
def sampleDB : DB :=
  { boards := [samplePublicBoard]
    board_memberships := []
    lists := [{ id := 2, board_id := 1, name := "To Do", position := 0, is_archived := false }]
    cards := []
    labels := []
    comments := []
    checklists := []
    checklist_items := []
    activities := []
    next_id := 100 }

/-- An incomplete checklist item used by the toggle witness. -/
def sampleItem : TrelloChecklistItem :=
  { id := 5, checklist_id := 4, content := "task", is_complete := false, position := 0,
    completed_by := none, completed_at := none }

/-- `sampleDB` extended with card 3 on list 2, checklist 4 on card 3, and the
incomplete item 5. -/
def sampleChecklistDB : DB :=
  { sampleDB with
    cards := [{ id := 3, list_id := 2, title := "c", description := "", position := 1,
                due_date := none, due_complete := false, is_archived := false,
                created_by := 1 }]
    checklists := [{ id := 4, card_id := 3, name := "cl", position := 0 }]
    checklist_items := [sampleItem] }

/-- `sampleChecklistDB` further extended with a comment 6 authored by user 5;
user 5 holds a member role and user 14 an admin role on board 1. -/
def sampleCommentDB : DB :=
  { sampleChecklistDB with
    board_memberships := sampleMemberRows ++
      [{ board_id := 1, user_id := 14, role := "admin" }]
    comments := [{ id := 6, card_id := 3, user_id := 5, content := "hi" }] }

/-- A second board 7 created by user 9, with its list 8, alongside a card 10
on board 1's list 2: the cross-board move scenario. -/
def sampleTwoBoardDB : DB :=
  { sampleDB with
    boards := sampleDB.boards ++
      [{ id := 7, name := "B2", description := "", background_color := "slate",
         is_private := false, is_archived := false, created_by := 9 }]
    lists := sampleDB.lists ++
      [{ id := 8, board_id := 7, name := "L2", position := 0, is_archived := false }]
    cards := [{ id := 10, list_id := 2, title := "c", description := "", position := 1,
                due_date := none, due_complete := false, is_archived := false,
                created_by := 1 }] }

/-! ## Claims about the permission model (`models.py`) -/

/-- Claim C1: `can_view` is a complete characterization of view permission:
every user can view a public board regardless of membership, and a private
board is viewable exactly by its creator and the users with an explicit
membership row. -/
theorem claim_C1_can_view_characterization (rows : List Membership) (b : TrelloBoard)
    (u : Nat) :
    (b.is_private = false → can_view rows b u = true) ∧
    (b.is_private = true →
      (can_view rows b u = true ↔
        b.created_by = u ∨ ∃ m ∈ rows, m.board_id = b.id ∧ m.user_id = u)) := by
  constructor
  · intro h
    simp [can_view, h]
  · intro h
    simp only [can_view, h, Bool.not_true, Bool.false_eq_true, if_false, Bool.or_eq_true,
      beq_iff_eq, memberIds, List.elem_eq_mem, List.mem_map, List.mem_filter,
      decide_eq_true_eq]
    constructor
    · rintro (⟨m, ⟨hm, hb⟩, hu⟩ | hc)
      · exact Or.inr ⟨m, hm, hb, hu⟩
      · exact Or.inl hc
    · rintro (hc | ⟨m, hm, hb, hu⟩)
      · exact Or.inr hc
      · exact Or.inl ⟨m, ⟨hm, hb⟩, hu⟩

/-- Claim C1 witness: user 5, a mere viewer, can view the private board
through the membership arm of the characterization. -/
theorem claim_C1_witness : can_view sampleViewerRows samplePrivateBoard 5 = true :=
  ((claim_C1_can_view_characterization sampleViewerRows samplePrivateBoard 5).2 rfl).mpr
    (Or.inr ⟨{ board_id := 1, user_id := 5, role := "viewer" }, by simp [sampleViewerRows],
      rfl, rfl⟩)

/-- Claim C2: `can_edit` holds exactly for the creator or a user whose
resolved role is owner, admin or member; a non-creator whose only role is
viewer cannot edit. -/
theorem claim_C2_can_edit_characterization (rows : List Membership) (b : TrelloBoard)
    (u : Nat) :
    (can_edit rows b u = true ↔
      b.created_by = u ∨ ∃ r, get_member_role rows b u = some r ∧
        (r = "owner" ∨ r = "admin" ∨ r = "member")) ∧
    (b.created_by ≠ u → get_member_role rows b u = some "viewer" →
      can_edit rows b u = false) := by
  constructor
  · cases hr : get_member_role rows b u with
    | none =>
      simp only [can_edit, pyRoleIn, hr, Bool.false_or, beq_iff_eq]
      constructor
      · exact fun hc => Or.inl hc
      · rintro (hc | ⟨r, hs, -⟩)
        · exact hc
        · cases hs
    | some r =>
      simp only [can_edit, pyRoleIn, hr, Bool.or_eq_true, beq_iff_eq, Option.some.injEq]
      constructor
      · rintro (hin | hc)
        · refine Or.inr ⟨r, rfl, ?_⟩
          simpa using hin
        · exact Or.inl hc
      · rintro (hc | ⟨r', hr', hin⟩)
        · exact Or.inr hc
        · subst hr'
          refine Or.inl ?_
          simpa using hin
  · intro hne hv
    simp [can_edit, pyRoleIn, hv]
    exact hne

/-- Claim C2 witness: user 5, an explicit member with only the viewer role on
a board created by user 2, cannot edit. -/
theorem claim_C2_witness : can_edit sampleViewerRows samplePrivateBoard 5 = false :=
  (claim_C2_can_edit_characterization sampleViewerRows samplePrivateBoard 5).2
    (by decide) rfl

/-- Claim C9: `is_overdue` is false whenever `due_complete` is set, and true
exactly when a due date exists, lies strictly before the current time, and
the due-complete flag is clear. -/
theorem claim_C9_is_overdue_characterization (now : Int) (c : TrelloCard) :
    (c.due_complete = true → is_overdue now c = false) ∧
    (is_overdue now c = true ↔
      ∃ d, c.due_date = some d ∧ d < now ∧ c.due_complete = false) := by
  cases hd : c.due_date <;> cases hc : c.due_complete <;>
    simp [is_overdue, hd, hc]

/-- Claim C9 witness: a card whose due date 0 is in the past relative to time
10 is nevertheless not overdue because its due-complete flag is set. -/
theorem claim_C9_witness :
    is_overdue 10
      { id := 3, list_id := 2, title := "t", description := "", position := 0,
        due_date := some 0, due_complete := true, is_archived := false,
        created_by := 1 } = false :=
  (claim_C9_is_overdue_characterization 10
    { id := 3, list_id := 2, title := "t", description := "", position := 0,
      due_date := some 0, due_complete := true, is_archived := false,
      created_by := 1 }).1 rfl

/-- Claim C10: edit permission implies view permission — every role granting
edit rights comes from an explicit membership row, and the creator passes
both checks. -/
theorem claim_C10_can_edit_implies_can_view (rows : List Membership) (b : TrelloBoard)
    (u : Nat) (h : can_edit rows b u = true) : can_view rows b u = true := by
  by_cases hp : b.is_private
  · simp only [can_edit, Bool.or_eq_true, beq_iff_eq] at h
    simp only [can_view, hp, Bool.not_true, Bool.false_eq_true, if_false, Bool.or_eq_true,
      beq_iff_eq]
    rcases h with hin | hc
    · cases hr : get_member_role rows b u with
      | none => rw [hr] at hin; simp [pyRoleIn] at hin
      | some r =>
        simp only [get_member_role, Option.map_eq_some'] at hr
        obtain ⟨m, hfind, -⟩ := hr
        have hmem := List.mem_of_find?_eq_some hfind
        have hpred := List.find?_some hfind
        simp only [Bool.and_eq_true, beq_iff_eq] at hpred
        refine Or.inl ?_
        simp only [memberIds, List.elem_eq_mem, List.mem_map, List.mem_filter,
          beq_iff_eq, decide_eq_true_eq]
        exact ⟨m, ⟨hmem, hpred.1⟩, hpred.2⟩
    · exact Or.inr hc
  · simp [can_view, hp]

/-- Claim C10 witness: user 5 holds the member role, hence can edit, hence
can view the private board. -/
theorem claim_C10_witness : can_view sampleMemberRows samplePrivateBoard 5 = true :=
  claim_C10_can_edit_implies_can_view sampleMemberRows samplePrivateBoard 5 (by decide)

/-! ## Claims about the ordering engine -/

/-- SQL `MAX` of a nonempty list bounds each of its members. -/
theorem sqlMaxInt_mem_le (ps : List Int) (p : Int) (hp : p ∈ ps) :
    ∃ m, sqlMaxInt ps = some m ∧ p ≤ m := by
  induction ps with
  | nil => cases hp
  | cons q qs ih =>
    cases hq : sqlMaxInt qs with
    | none =>
      rcases List.mem_cons.mp hp with h | h
      · exact ⟨q, by simp [sqlMaxInt, hq], le_of_eq h⟩
      · obtain ⟨m, hm, -⟩ := ih h
        rw [hq] at hm
        cases hm
    | some m =>
      rcases List.mem_cons.mp hp with h | h
      · exact ⟨max q m, by simp [sqlMaxInt, hq], h ▸ le_max_left q m⟩
      · obtain ⟨m2, hm2, hpm2⟩ := ih h
        rw [hq] at hm2
        have e : m = m2 := by injection hm2
        refine ⟨max q m, by simp [sqlMaxInt, hq], ?_⟩
        rw [e]
        exact le_trans hpm2 (le_max_right q m2)

/-- Python's `or 0` is the identity on a present scalar. -/
theorem pyOrZero_some (m : Int) : pyOrZero (some m) = m := by
  simp only [pyOrZero]
  split <;> omega

/-- The appended position `max(siblings) or 0` plus one strictly dominates
every sibling position, and is strictly positive on an empty sibling set. -/
theorem append_position_spec (ps : List Int) :
    (∀ p ∈ ps, p < pyOrZero (sqlMaxInt ps) + 1) ∧
    (ps = [] → 0 < pyOrZero (sqlMaxInt ps) + 1) := by
  constructor
  · intro p hp
    obtain ⟨m, hm, hpm⟩ := sqlMaxInt_mem_le ps p hp
    rw [hm, pyOrZero_some]
    omega
  · intro h
    subst h
    simp [sqlMaxInt, pyOrZero]

/-- Claim C4: appending a new entity at the end — a list within a board via
`create_list`, a card within a list via `create_card` — assigns a position
strictly greater than every sibling's position, and strictly greater than 0
when the sibling collection is empty. -/
theorem claim_C4_append_at_end :
    (∀ (db : DB) (uid boardId : Nat) (nameInput : Option String) (db2 : DB)
        (lst : TrelloList), create_list db uid boardId nameInput = .ok (db2, lst) →
      (∀ l ∈ db.lists, l.board_id = boardId → l.position < lst.position) ∧
      (db.lists.filter (fun l => l.board_id == boardId) = [] → 0 < lst.position)) ∧
    (∀ (db : DB) (uid listId : Nat) (titleInput : Option String) (db2 : DB)
        (card : TrelloCard), create_card db uid listId titleInput = .ok (db2, card) →
      (∀ c ∈ db.cards, c.list_id = listId → c.position < card.position) ∧
      (db.cards.filter (fun c => c.list_id == listId) = [] → 0 < card.position)) := by
  constructor
  · intro db uid boardId nameInput db2 lst h
    simp only [create_list] at h
    split at h
    · simp at h
    · split at h
      · simp at h
      · simp only [Except.ok.injEq, Prod.mk.injEq] at h
        obtain ⟨-, hlst⟩ := h
        subst hlst
        have hs := append_position_spec
          ((db.lists.filter (fun l => l.board_id == boardId)).map (fun l => l.position))
        constructor
        · intro l hl hlb
          exact hs.1 l.position (List.mem_map.mpr ⟨l, List.mem_filter.mpr
            ⟨hl, by simp [hlb]⟩, rfl⟩)
        · intro hnil
          exact hs.2 (by rw [hnil]; rfl)
  · intro db uid listId titleInput db2 card h
    simp only [create_card] at h
    split at h
    · simp at h
    · split at h
      · simp at h
      · split at h
        · simp at h
        · simp only [Except.ok.injEq, Prod.mk.injEq] at h
          obtain ⟨-, hcard⟩ := h
          subst hcard
          have hs := append_position_spec
            ((db.cards.filter (fun c => c.list_id == listId)).map (fun c => c.position))
          constructor
          · intro c hc hcl
            exact hs.1 c.position (List.mem_map.mpr ⟨c, List.mem_filter.mpr
              ⟨hc, by simp [hcl]⟩, rfl⟩)
          · intro hnil
            exact hs.2 (by rw [hnil]; rfl)

/-- Claim C4 witness: creating a list on `sampleDB`'s board 1 places it after
the existing list at position 0. -/
theorem claim_C4_witness :
    ∃ (db2 : DB) (lst : TrelloList),
      create_list sampleDB 1 1 none = Except.ok (db2, lst) ∧
      ∀ l ∈ sampleDB.lists, l.board_id = 1 → l.position < lst.position := by
  obtain ⟨db2, lst, h⟩ :
      ∃ db2 lst, create_list sampleDB 1 1 none = Except.ok (db2, lst) := ⟨_, _, rfl⟩
  exact ⟨db2, lst, h, (claim_C4_append_at_end.1 sampleDB 1 1 none db2 lst h).1⟩

/-! ## Claims about card creation input handling -/

/-- Claim C3 counterexample: on a concrete database, creating a card with the
title key absent from the form is not rejected — the operation succeeds and a
card titled "New Card" is written. This refutes the claim that a missing
required title is rejected as a validation error with no state written. -/
theorem claim_C3_counterexample :
    ∃ (db2 : DB) (card : TrelloCard),
      create_card sampleDB 1 2 none = Except.ok (db2, card) ∧
      card.title = "New Card" ∧ card ∈ db2.cards := by
  refine ⟨_, _, rfl, rfl, ?_⟩
  decide

/-- Claim C3 as amended: creating a card with a missing title input is not a
validation error; the card is created with the default title "New Card" and
written to the store. -/
theorem claim_C3_missing_title_defaults (db : DB) (uid listId : Nat)
    (db2 : DB) (card : TrelloCard)
    (h : create_card db uid listId none = .ok (db2, card)) :
    card.title = "New Card" ∧ card ∈ db2.cards := by
  simp only [create_card] at h
  split at h
  · simp at h
  · split at h
    · simp at h
    · split at h
      · simp at h
      · simp only [Except.ok.injEq, Prod.mk.injEq] at h
        obtain ⟨hdb, hcard⟩ := h
        subst hdb
        subst hcard
        refine ⟨rfl, ?_⟩
        simp [log_activity]

/-- Claim C3 witness: the amended behaviour on the concrete database. -/
theorem claim_C3_witness :
    ∃ (db2 : DB) (card : TrelloCard),
      create_card sampleDB 1 2 none = Except.ok (db2, card) ∧
      card.title = "New Card" := by
  obtain ⟨db2, card, h⟩ :
      ∃ db2 card, create_card sampleDB 1 2 none = Except.ok (db2, card) := ⟨_, _, rfl⟩
  exact ⟨db2, card, h, (claim_C3_missing_title_defaults sampleDB 1 2 db2 card h).1⟩

/-! ## Claims about board creation -/

/-- Claim C5: creating a board yields, in one atomic state update, exactly 6
labels of the new board, exactly 3 lists of the new board with positions
0, 1, 2, and exactly one `created_board` activity entry of the new board.
The hypotheses state that the allocated board id is fresh. -/
theorem claim_C5_create_board_defaults (db : DB) (uid : Nat) (nm ds bg : String)
    (priv : Bool)
    (hlab : ∀ l ∈ db.labels, l.board_id ≠ db.next_id)
    (hlst : ∀ l ∈ db.lists, l.board_id ≠ db.next_id)
    (hact : ∀ a ∈ db.activities, a.board_id ≠ db.next_id) :
    (((create_board db uid nm ds bg priv).1.labels.filter
        (fun l => l.board_id == (create_board db uid nm ds bg priv).2.id)).length = 6) ∧
    (((create_board db uid nm ds bg priv).1.lists.filter
        (fun l => l.board_id == (create_board db uid nm ds bg priv).2.id)).map
      (fun l => l.position) = [0, 1, 2]) ∧
    (((create_board db uid nm ds bg priv).1.activities.filter
        (fun a => a.board_id == (create_board db uid nm ds bg priv).2.id &&
          a.action == "created_board")).length = 1) := by
  have h1 : db.labels.filter (fun l => l.board_id == db.next_id) = [] :=
    List.filter_eq_nil_iff.mpr (fun l hl => by simp [hlab l hl])
  have h2 : db.lists.filter (fun l => l.board_id == db.next_id) = [] :=
    List.filter_eq_nil_iff.mpr (fun l hl => by simp [hlst l hl])
  have h3 : db.activities.filter
      (fun a => a.board_id == db.next_id && a.action == "created_board") = [] :=
    List.filter_eq_nil_iff.mpr (fun a ha => by simp [hact a ha])
  refine ⟨?_, ?_, ?_⟩ <;>
    simp [create_board, log_activity, default_labels, default_lists, pyEnumFrom,
      List.filter_append, h1, h2, h3]

/-- Claim C5 witness: creating a board on the concrete database seeds the
three default lists at positions 0, 1, 2. -/
theorem claim_C5_witness :
    ((create_board sampleDB 1 "B2" "" "slate" false).1.lists.filter
      (fun l => l.board_id == (create_board sampleDB 1 "B2" "" "slate" false).2.id)).map
      (fun l => l.position) = [0, 1, 2] :=
  (claim_C5_create_board_defaults sampleDB 1 "B2" "" "slate" false
    (by decide) (by decide) (by decide)).2.1

/-! ## Claims about checklist item toggling -/

/-- Updating exactly the rows matched by `p` commutes with `find? p`, as long
as the update preserves `p`. -/
theorem find_update_comm {α : Type} (l : List α) (p : α → Bool) (f : α → α)
    (hf : ∀ a, p a = true → p (f a) = true) :
    (l.map (fun a => if p a then f a else a)).find? p = (l.find? p).map f := by
  induction l with
  | nil => rfl
  | cons a t ih =>
    by_cases ha : p a = true
    · rw [List.map_cons, if_pos ha, List.find?_cons_of_pos _ (hf a ha),
        List.find?_cons_of_pos _ ha]
      rfl
    · have ha2 : ¬ p a := by simpa using ha
      rw [List.map_cons, if_neg ha2, List.find?_cons_of_neg _ ha2,
        List.find?_cons_of_neg _ ha2, ih]

/-- The toggle update never changes an item's id. -/
theorem toggleItem_id (uid : Nat) (now : Int) (i : TrelloChecklistItem) :
    (toggleItem uid now i).id = i.id := by
  cases hi : i.is_complete <;> simp [toggleItem, hi]

/-- Claim C6: after every successful toggle, the toggled item's completion
flag is flipped, and `completed_by`/`completed_at` are both set (to the
acting user and current time) when it became complete, both cleared when it
became incomplete — so the completion-consistency invariant holds. -/
theorem claim_C6_toggle_completion_invariant (db : DB) (uid : Nat) (now : Int)
    (itemId : Nat) (db2 : DB) (item : TrelloChecklistItem)
    (hfind : findChecklistItem db itemId = some item)
    (h : toggle_checklist_item db uid now itemId = .ok db2) :
    ∃ item2, findChecklistItem db2 itemId = some item2 ∧
      item2.is_complete = !item.is_complete ∧
      (item2.is_complete = true →
        item2.completed_by = some uid ∧ item2.completed_at = some now) ∧
      (item2.is_complete = false →
        item2.completed_by = none ∧ item2.completed_at = none) ∧
      completionConsistent item2 := by
  simp only [toggle_checklist_item] at h
  split at h
  · simp at h
  · split at h
    · simp at h
    · split at h
      · simp at h
      · split at h
        · simp at h
        · split at h
          · simp at h
          · split at h
            · simp at h
            · simp only [Except.ok.injEq] at h
              subst h
              refine ⟨toggleItem uid now item, ?_, ?_, ?_, ?_, ?_⟩
              · show (db.checklist_items.map
                  (fun i => if i.id == itemId then toggleItem uid now i else i)).find?
                    (fun i => i.id == itemId) = _
                rw [find_update_comm _ _ _
                  (fun a hpa => by rw [toggleItem_id]; exact hpa)]
                rw [show db.checklist_items.find? (fun i => i.id == itemId) = some item
                  from hfind]
                rfl
              · cases hi : item.is_complete <;> simp [toggleItem, hi]
              · cases hi : item.is_complete <;> simp [toggleItem, hi]
              · cases hi : item.is_complete <;> simp [toggleItem, hi]
              · cases hi : item.is_complete <;>
                  simp [toggleItem, hi, completionConsistent]

/-- Claim C6 witness: toggling the incomplete item 5 on the concrete database
completes it and leaves the completion fields mutually consistent. -/
theorem claim_C6_witness :
    ∃ (db2 : DB) (item2 : TrelloChecklistItem),
      toggle_checklist_item sampleChecklistDB 1 77 5 = Except.ok db2 ∧
      findChecklistItem db2 5 = some item2 ∧ item2.is_complete = true ∧
      completionConsistent item2 := by
  obtain ⟨db2, h⟩ :
      ∃ db2, toggle_checklist_item sampleChecklistDB 1 77 5 = Except.ok db2 := ⟨_, rfl⟩
  obtain ⟨item2, h1, h2, h3, h4, h5⟩ :=
    claim_C6_toggle_completion_invariant sampleChecklistDB 1 77 5 db2 sampleItem rfl h
  exact ⟨db2, item2, h, h1, by rw [h2]; rfl, h5⟩

/-! ## Claims about card moves -/

/-- Claim C7: a move request whose target list exists but belongs to a
different board than the card's current board succeeds without error and
leaves the card's list membership unchanged. -/
theorem claim_C7_cross_board_move_noop (db : DB) (uid cid nlid : Nat)
    (dataPos : Option Int) (card : TrelloCard) (lst : TrelloList)
    (board : TrelloBoard) (nl : TrelloList)
    (hcard : findCard db cid = some card)
    (hlst : findList db card.list_id = some lst)
    (hboard : findBoard db lst.board_id = some board)
    (hperm : can_edit db.board_memberships board uid = true)
    (hnl : findList db nlid = some nl)
    (hdiff : nl.board_id ≠ board.id) :
    ∃ db2, move_card db uid cid (some nlid) dataPos = Except.ok db2 ∧
      (findCard db2 cid).map (fun c => c.list_id) = some card.list_id := by
  have hbne : (nl.board_id == board.id) = false := by simp [hdiff]
  simp only [move_card, hcard, hlst, hboard, hperm, hnl, hbne, Bool.not_true,
    Bool.false_eq_true, if_false]
  refine ⟨_, rfl, ?_⟩
  show ((db.cards.map (fun c => if c.id == cid then
      (match dataPos with | none => c | some p => { c with position := p }) else c)).find?
        (fun c => c.id == cid)).map (fun c => c.list_id) = some card.list_id
  rw [find_update_comm _ _ _ (fun a hpa => by
    cases dataPos <;> simpa using hpa)]
  rw [show db.cards.find? (fun c => c.id == cid) = some card from hcard]
  cases dataPos <;> rfl

/-- Claim C7 witness: moving card 10 (on board 1's list 2) to list 8 of board
7 succeeds and leaves the card on list 2. -/
theorem claim_C7_witness :
    ∃ db2, move_card sampleTwoBoardDB 1 10 (some 8) (some 42) = Except.ok db2 ∧
      (findCard db2 10).map (fun c => c.list_id) = some 2 :=
  claim_C7_cross_board_move_noop sampleTwoBoardDB 1 10 8 (some 42)
    { id := 10, list_id := 2, title := "c", description := "", position := 1,
      due_date := none, due_complete := false, is_archived := false, created_by := 1 }
    { id := 2, board_id := 1, name := "To Do", position := 0, is_archived := false }
    samplePublicBoard
    { id := 8, board_id := 7, name := "L2", position := 0, is_archived := false }
    rfl rfl rfl (by decide) rfl (by decide)

/-! ## Claims about comment deletion -/

/-- Claim C8: deleting a comment succeeds exactly when the requester is the
comment's author or a board owner, and every other requester — including one
holding general edit rights — receives a permission-denied error. -/
theorem claim_C8_delete_comment_permission (db : DB) (uid commentId : Nat)
    (comment : TrelloComment) (card : TrelloCard) (lst : TrelloList)
    (board : TrelloBoard)
    (hc : findComment db commentId = some comment)
    (hcard : findCard db comment.card_id = some card)
    (hlst : findList db card.list_id = some lst)
    (hboard : findBoard db lst.board_id = some board) :
    ((∃ db2, delete_comment db uid commentId = Except.ok db2) ↔
      (comment.user_id = uid ∨ is_owner db.board_memberships board uid = true)) ∧
    (¬(comment.user_id = uid ∨ is_owner db.board_memberships board uid = true) →
      delete_comment db uid commentId = Except.error TrelloErr.permissionDenied) := by
  by_cases hauth : comment.user_id = uid ∨ is_owner db.board_memberships board uid = true
  · have hcond : (comment.user_id != uid && !is_owner db.board_memberships board uid)
        = false := by
      rcases hauth with h | h <;> simp [h]
    simp only [delete_comment, hc, hcard, hlst, hboard, hcond, Bool.false_eq_true,
      if_false]
    constructor
    · exact ⟨fun _ => hauth, fun _ => ⟨_, rfl⟩⟩
    · exact fun hn => absurd hauth hn
  · have h1 : comment.user_id ≠ uid := fun e => hauth (Or.inl e)
    have h2 : is_owner db.board_memberships board uid = false := by
      cases ho : is_owner db.board_memberships board uid
      · rfl
      · exact absurd (Or.inr ho) hauth
    have hcond : (comment.user_id != uid && !is_owner db.board_memberships board uid)
        = true := by
      simp [h1, h2]
    simp only [delete_comment, hc, hcard, hlst, hboard, hcond, if_true]
    constructor
    · constructor
      · rintro ⟨db2, hdb2⟩
        cases hdb2
      · exact fun h => absurd h hauth
    · intro h
      trivial

/-- Claim C8 witness: user 14 holds the admin role (hence general edit
rights) on board 1 but, being neither comment author nor board owner, cannot
delete comment 6. -/
theorem claim_C8_witness :
    can_edit sampleCommentDB.board_memberships samplePublicBoard 14 = true ∧
    delete_comment sampleCommentDB 14 6 = Except.error TrelloErr.permissionDenied :=
  ⟨by decide,
    (claim_C8_delete_comment_permission sampleCommentDB 14 6
      { id := 6, card_id := 3, user_id := 5, content := "hi" }
      { id := 3, list_id := 2, title := "c", description := "", position := 1,
        due_date := none, due_complete := false, is_archived := false, created_by := 1 }
      { id := 2, board_id := 1, name := "To Do", position := 0, is_archived := false }
      samplePublicBoard rfl rfl rfl rfl).2 (by decide)⟩

end Trella
